import Mathlib

/-!
Shallow embedding of the control core of this repository:
the Volkswagen MQB car controller
(selfdrive/car/volkswagen/carcontroller.py) and the radar fusion helpers
(selfdrive/controls/lib/radar_helpers.py), together with theorems that
settle the specification claims C1 - C10.

Machine values are embedded as Int / Nat / Rat; the Python dict of
cruise-control buttons is embedded as a record of the two fields the
controller ever overrides (the remaining entries are passed through
unchanged and are irrelevant to every claim).
-/

/-! Constants of CarControllerParams (carcontroller.py, lines 12-24). -/

def CarControllerParams.HCA_STEP_ACTIVE : Nat := 2

def CarControllerParams.HCA_STEP_INACTIVE : Nat := 10

def CarControllerParams.LDW_STEP : Nat := 10

def CarControllerParams.GRA_ACC_STEP : Nat := 3

def CarControllerParams.STEER_MAX : Int := 300

def CarControllerParams.STEER_DELTA_UP : Int := 10

def CarControllerParams.STEER_DELTA_DOWN : Int := 10

def CarControllerParams.STEER_DRIVER_ALLOWANCE : Int := 100

def CarControllerParams.STEER_DRIVER_MULTIPLIER : Int := 4

def CarControllerParams.STEER_DRIVER_FACTOR : Int := 1

/-- Cruise-control button state: the two entries of the gra_acc_buttons dict
that the controller ever forces to True. -/
structure GraButtons where
  resume : Bool
  cancel : Bool
  deriving DecidableEq

/-- The fields of the car-state snapshot CS read by CarController.update. -/
structure CarState where
  acc_active : Bool
  standstill : Bool
  steer_torque_driver : Int
  gra_acc_buttons : GraButtons
  deriving DecidableEq

/-- Payload of mqbcan.create_steering_control (HCA_01 message). -/
structure SteeringMsg where
  apply_steer : Int
  idx : Nat
  lkas_enabled : Nat
  deriving DecidableEq

/-- Kind of a pending virtual button press (self.acc_vbp_type). -/
inductive VbpKind where
  | resume
  | cancel
  deriving DecidableEq

/-- Payload of mqbcan.create_acc_buttons_control (GRA_ACC_01 message):
the button bitmap to send plus the rolling counter. -/
structure GraMsg where
  buttons : GraButtons
  idx : Nat
  deriving DecidableEq

/-- Clamp x into the interval from lo to hi. -/
def clip (x lo hi : Int) : Int := max lo (min hi x)

/-- Modelled from the spec: the shared rate-limiting helper
apply_std_steer_torque_limits lives in selfdrive/car/__init__.py, which is
not among the provided sources.  Per the spec contract the result is
clamped so that its magnitude never exceeds STEER_MAX, the allowed
magnitude is further reduced by the scaled driver torque when the driver
torque exceeds the allowance and opposes the commanded direction, and the
change from the previous value is bounded by the up-step when increasing
and by the down-step when decreasing. -/
def apply_std_steer_torque_limits (apply_torque apply_torque_last driver_torque : Int) : Int :=
  let opposing : Bool :=
    (decide (0 < apply_torque) && decide (driver_torque < 0)) ||
      (decide (apply_torque < 0) && decide (0 < driver_torque))
  let reduction : Int :=
    if opposing && decide (CarControllerParams.STEER_DRIVER_ALLOWANCE < |driver_torque|) then
      (|driver_torque| - CarControllerParams.STEER_DRIVER_ALLOWANCE) *
        CarControllerParams.STEER_DRIVER_FACTOR * CarControllerParams.STEER_DRIVER_MULTIPLIER
    else 0
  let allowed := max 0 (CarControllerParams.STEER_MAX - reduction)
  clip (clip apply_torque (-allowed) allowed)
    (apply_torque_last - CarControllerParams.STEER_DELTA_DOWN)
    (apply_torque_last + CarControllerParams.STEER_DELTA_UP)

/-- The torque computed on an active steering frame (carcontroller.py,
lines 58-60): desired = round(actuators.steer * STEER_MAX), then the
rate-limiting helper lf applied to (desired, previous, driver torque). -/
def hcaSteer (lf : Int → Int → Int → Int) (CS : CarState) (steer : ℚ)
    (apply_steer_last : Int) : Int :=
  lf (round (steer * (CarControllerParams.STEER_MAX : ℚ))) apply_steer_last
    CS.steer_torque_driver

/-- The HCA_01 steering branch of CarController.update (carcontroller.py,
lines 52-75), parameterised by the rate-limiting helper lf.  Returns the
new value of self.apply_steer_last and the emitted message, if any. -/
def CarController.update_hca (lf : Int → Int → Int → Int) (enabled : Bool)
    (CS : CarState) (frame : Nat) (steer : ℚ) (apply_steer_last : Int) :
    Int × Option SteeringMsg :=
  if frame % CarControllerParams.HCA_STEP_ACTIVE = 0 then
    if enabled && CS.acc_active && !CS.standstill then
      (hcaSteer lf CS steer apply_steer_last,
        some ⟨hcaSteer lf CS steer apply_steer_last,
          frame / CarControllerParams.HCA_STEP_ACTIVE % 16,
          if hcaSteer lf CS steer apply_steer_last = 0 then 0 else 1⟩)
    else
      (0, some ⟨0, frame / CarControllerParams.HCA_STEP_ACTIVE % 16, 0⟩)
  else (apply_steer_last, none)

/-- Force the entry named by the pending virtual button press to True
(gra_acc_buttons_tosend[self.acc_vbp_type] = True). -/
def GraButtons.applyVbp (b : GraButtons) : VbpKind → GraButtons
  | VbpKind.resume => { b with resume := true }
  | VbpKind.cancel => { b with cancel := true }

/-- The virtual-button-press state after the enabled/disabled arbitration
of carcontroller.py lines 112-124 (self.acc_vbp_type with its end frame,
kept as a single Option since the two attributes are always set
together). -/
def graVbp1 (enabled : Bool) (CS : CarState) (frame : Nat)
    (vbp : Option (VbpKind × Nat)) : Option (VbpKind × Nat) :=
  if enabled then
    if CS.standstill && decide (frame % (CarControllerParams.GRA_ACC_STEP * 33) = 0) then
      some (VbpKind.resume, frame + 20)
    else vbp
  else
    if CS.acc_active then some (VbpKind.cancel, frame + 20) else vbp

/-- The GRA_ACC_01 cruise-button branch of CarController.update
(carcontroller.py, lines 101-142).  Returns the new virtual-button-press
state and the emitted message, if any. -/
def CarController.update_gra (enabled : Bool) (CS : CarState) (frame : Nat)
    (vbp : Option (VbpKind × Nat)) : Option (VbpKind × Nat) × Option GraMsg :=
  if frame % CarControllerParams.GRA_ACC_STEP = 0 then
    match graVbp1 enabled CS frame vbp with
    | some kv =>
        if frame < kv.2 then
          (some kv, some ⟨CS.gra_acc_buttons.applyVbp kv.1,
            frame / CarControllerParams.GRA_ACC_STEP % 16⟩)
        else
          (none, some ⟨CS.gra_acc_buttons, frame / CarControllerParams.GRA_ACC_STEP % 16⟩)
    | none => (none, some ⟨CS.gra_acc_buttons, frame / CarControllerParams.GRA_ACC_STEP % 16⟩)
  else (vbp, none)

/-- Virtual-button-press state after n consecutive arbiter ticks starting
at tick t0 (frames 3*t0, 3*t0+3, ...), with the controller enabled
throughout and no press pending initially. -/
def graStateAfter (CS : CarState) (t0 : Nat) : Nat → Option (VbpKind × Nat)
  | 0 => none
  | n + 1 =>
      (CarController.update_gra true CS (3 * (t0 + n)) (graStateAfter CS t0 n)).1

/-- Whether a fresh resume injection is started on the n-th tick of the
run: the state right after that tick is a resume press expiring exactly
20 frames after the tick frame. -/
def graInjAt (CS : CarState) (t0 n : Nat) : Bool :=
  decide (graStateAfter CS t0 (n + 1) = some (VbpKind.resume, 3 * (t0 + n) + 20))

/-- Number of resume injections started during the first N ticks of the
run. -/
def graInjCount (CS : CarState) (t0 N : Nat) : Nat :=
  ((List.range N).filter (fun n => graInjAt CS t0 n)).length

/-- A rate-limiting helper that always returns 0; used to instantiate
theorems that hold for every helper meeting the contract. -/
def lfZero : Int → Int → Int → Int := fun _ _ _ => 0

/-- A car state with vehicle ACC active and the car moving. -/
def csActive : CarState :=
  { acc_active := true, standstill := false, steer_torque_driver := 0,
    gra_acc_buttons := { resume := false, cancel := false } }

/-- A car state with the car at standstill. -/
def csStand : CarState :=
  { acc_active := true, standstill := true, steer_torque_driver := 0,
    gra_acc_buttons := { resume := false, cancel := false } }

/-- C1: on every control frame on which a steering message is emitted, the
torque field of that message has magnitude at most STEER_MAX = 300,
assuming the external rate-limiting helper meets its contract of never
exceeding STEER_MAX (the disabled branch emits torque 0, which also
satisfies the bound). -/
theorem steering_torque_bounded_by_steer_max
    (lf : Int → Int → Int → Int)
    (hlf : ∀ a l d, |lf a l d| ≤ CarControllerParams.STEER_MAX)
    (enabled : Bool) (CS : CarState) (frame : Nat) (steer : ℚ)
    (apply_steer_last : Int) (msg : SteeringMsg)
    (hmsg : (CarController.update_hca lf enabled CS frame steer apply_steer_last).2 = some msg) :
    |msg.apply_steer| ≤ CarControllerParams.STEER_MAX := by
  unfold CarController.update_hca at hmsg
  split at hmsg
  · split at hmsg
    · simp only [Option.some.injEq] at hmsg
      subst hmsg
      exact hlf _ _ _
    · simp only [Option.some.injEq] at hmsg
      subst hmsg
      simp [CarControllerParams.STEER_MAX]
  · simp at hmsg

/-- C1 witness: the bound instantiated at a concrete helper and input. -/
theorem steering_torque_bounded_by_steer_max_witness :
    ∃ msg, (CarController.update_hca lfZero true csActive 0 0 0).2 = some msg ∧
      |msg.apply_steer| ≤ CarControllerParams.STEER_MAX :=
  ⟨⟨0, 0, 0⟩, rfl,
    steering_torque_bounded_by_steer_max lfZero
      (fun a l d => by simp [lfZero, CarControllerParams.STEER_MAX])
      true csActive 0 0 0 ⟨0, 0, 0⟩ rfl⟩

/-- C2: on every steering-cadence frame on which the enable precondition
(enabled and acc_active and not standstill) is false, the controller
emits torque 0 with laneKeepActive false, and the previous-torque memory
apply_steer_last is reset to 0 on that same frame. -/
theorem steering_disabled_emits_zero_and_resets
    (lf : Int → Int → Int → Int) (enabled : Bool) (CS : CarState)
    (frame : Nat) (steer : ℚ) (apply_steer_last : Int)
    (hframe : frame % CarControllerParams.HCA_STEP_ACTIVE = 0)
    (hdis : (enabled && CS.acc_active && !CS.standstill) = false) :
    CarController.update_hca lf enabled CS frame steer apply_steer_last =
      (0, some ⟨0, frame / CarControllerParams.HCA_STEP_ACTIVE % 16, 0⟩) := by
  unfold CarController.update_hca
  rw [if_pos hframe, if_neg]
  simp [hdis]

/-- C2 witness: the disabled branch at a concrete input. -/
theorem steering_disabled_emits_zero_and_resets_witness :
    CarController.update_hca lfZero false csActive 0 0 7 =
      (0, some ⟨0, 0, 0⟩) :=
  steering_disabled_emits_zero_and_resets lfZero false csActive 0 0 7 rfl rfl

/-- C3 counterexample: with the rate-limiting helper modelled from the
spec, two consecutive active steering frames can emit torques +5 and -5
(a sign flip that never passes through zero), and the flip frame still
has laneKeepActive = 1: the code forces laneKeepActive = 0 only when the
rate-limited torque is exactly 0. -/
theorem steering_sign_flip_keeps_lane_keep_active :
    CarController.update_hca apply_std_steer_torque_limits true csActive 0 (1/60) 0 =
      (5, some ⟨5, 0, 1⟩) ∧
    CarController.update_hca apply_std_steer_torque_limits true csActive 2 (-1) 5 =
      (-5, some ⟨-5, 1, 1⟩) := by
  have hs1 : hcaSteer apply_std_steer_torque_limits csActive (1/60) 0 = 5 := by
    unfold hcaSteer
    rw [show round ((1/60 : ℚ) * (CarControllerParams.STEER_MAX : ℚ)) = 5 by
      norm_num [CarControllerParams.STEER_MAX, round_eq]]
    decide
  have hs2 : hcaSteer apply_std_steer_torque_limits csActive (-1) 5 = -5 := by
    unfold hcaSteer
    rw [show round ((-1 : ℚ) * (CarControllerParams.STEER_MAX : ℚ)) = -300 by
      norm_num [CarControllerParams.STEER_MAX, round_eq]]
    decide
  constructor
  · unfold CarController.update_hca
    rw [hs1]
    decide
  · unfold CarController.update_hca
    rw [hs2]
    decide

/-- C3 amended: on every active steering-cadence frame, laneKeepActive is
forced to 0 exactly when the rate-limited torque of that frame is 0 (the
zero-crossing rule); a direct sign flip whose torque is nonzero keeps
laneKeepActive = 1. -/
theorem steering_zero_torque_iff_lane_keep_inactive
    (lf : Int → Int → Int → Int) (enabled : Bool) (CS : CarState)
    (frame : Nat) (steer : ℚ) (apply_steer_last : Int) (msg : SteeringMsg)
    (hframe : frame % CarControllerParams.HCA_STEP_ACTIVE = 0)
    (hen : (enabled && CS.acc_active && !CS.standstill) = true)
    (hmsg : (CarController.update_hca lf enabled CS frame steer apply_steer_last).2 = some msg) :
    msg.lkas_enabled = 0 ↔ msg.apply_steer = 0 := by
  unfold CarController.update_hca at hmsg
  rw [if_pos hframe, if_pos hen] at hmsg
  simp only [Option.some.injEq] at hmsg
  subst hmsg
  by_cases h : hcaSteer lf CS steer apply_steer_last = 0 <;> simp [h]

/-- C3 amended witness: the zero-crossing rule at a concrete input. -/
theorem steering_zero_torque_iff_lane_keep_inactive_witness :
    (SteeringMsg.mk 0 0 0).lkas_enabled = 0 ↔ (SteeringMsg.mk 0 0 0).apply_steer = 0 := by
  have h0 : hcaSteer apply_std_steer_torque_limits csActive 0 0 = 0 := by
    unfold hcaSteer
    rw [show round ((0 : ℚ) * (CarControllerParams.STEER_MAX : ℚ)) = 0 by
      norm_num [CarControllerParams.STEER_MAX, round_eq]]
    decide
  refine steering_zero_torque_iff_lane_keep_inactive apply_std_steer_torque_limits
    true csActive 0 0 0 ⟨0, 0, 0⟩ rfl rfl ?_
  unfold CarController.update_hca
  rw [h0]
  decide

/-- C4: every emitted steering message carries rolling counter
(frame / HCA_STEP_ACTIVE) mod 16 and every emitted cruise-button message
carries rolling counter (frame / GRA_ACC_STEP) mod 16; both lie in
[0, 15] and are computed from the externally supplied frame counter
alone — the equations have no occurrence of the internal state, so the
counter is never independently incremented. -/
theorem rolling_counter_pure_function_of_frame
    (lf : Int → Int → Int → Int) (enabled : Bool) (CS : CarState)
    (frame : Nat) (steer : ℚ) (apply_steer_last : Int)
    (vbp : Option (VbpKind × Nat)) :
    (∀ msg, (CarController.update_hca lf enabled CS frame steer apply_steer_last).2 = some msg →
      msg.idx = frame / CarControllerParams.HCA_STEP_ACTIVE % 16 ∧ msg.idx < 16) ∧
    (∀ msg, (CarController.update_gra enabled CS frame vbp).2 = some msg →
      msg.idx = frame / CarControllerParams.GRA_ACC_STEP % 16 ∧ msg.idx < 16) := by
  constructor
  · intro msg hmsg
    unfold CarController.update_hca at hmsg
    split at hmsg
    · split at hmsg <;>
        · simp only [Option.some.injEq] at hmsg
          subst hmsg
          exact ⟨rfl, Nat.mod_lt _ (by norm_num)⟩
    · simp at hmsg
  · intro msg hmsg
    unfold CarController.update_gra at hmsg
    split at hmsg
    · split at hmsg
      · split at hmsg <;>
          · simp only [Option.some.injEq] at hmsg
            subst hmsg
            exact ⟨rfl, Nat.mod_lt _ (by norm_num)⟩
      · simp only [Option.some.injEq] at hmsg
        subst hmsg
        exact ⟨rfl, Nat.mod_lt _ (by norm_num)⟩
    · simp at hmsg

/-- One arbiter tick at frame 3*k with the controller enabled and the car
at standstill: a resume press with end frame 3*k + 20 is (re)started when
k is a multiple of 33, and otherwise the pending press is kept while the
frame is before its end frame and cleared once the frame reaches it. -/
theorem update_gra_step_standstill (CS : CarState) (hss : CS.standstill = true)
    (k : Nat) (vbp : Option (VbpKind × Nat)) :
    (CarController.update_gra true CS (3 * k) vbp).1 =
      if k % 33 = 0 then some (VbpKind.resume, 3 * k + 20)
      else
        match vbp with
        | some kv => if 3 * k < kv.2 then some kv else none
        | none => none := by
  have h3 : 3 * k % CarControllerParams.GRA_ACC_STEP = 0 := by
    simp [CarControllerParams.GRA_ACC_STEP, Nat.mul_mod_right]
  by_cases h : k % 33 = 0
  · have h99 : 3 * k % (CarControllerParams.GRA_ACC_STEP * 33) = 0 := by
      simp only [CarControllerParams.GRA_ACC_STEP]
      omega
    simp [CarController.update_gra, graVbp1, hss, h3, h99, h,
      show 3 * k < 3 * k + 20 by omega]
  · have h99 : ¬ 3 * k % (CarControllerParams.GRA_ACC_STEP * 33) = 0 := by
      simp only [CarControllerParams.GRA_ACC_STEP]
      omega
    rcases vbp with _ | kv
    · simp [CarController.update_gra, graVbp1, hss, h3, h99, h]
    · by_cases hlt : 3 * k < kv.2
      · simp [CarController.update_gra, graVbp1, hss, h3, h99, h, hlt]
      · simp [CarController.update_gra, graVbp1, hss, h3, h99, h, hlt]

/-- Every pending press reachable in the run expires at most 20 frames
after the frame of some earlier tick, hence strictly before 20 frames
past the frame of the next tick. -/
theorem graStateAfter_endframe_lt (CS : CarState) (hss : CS.standstill = true)
    (t0 : Nat) :
    ∀ n kv, graStateAfter CS t0 n = some kv → kv.2 < 3 * (t0 + n) + 20 := by
  intro n
  induction n with
  | zero => intro kv h; simp [graStateAfter] at h
  | succ n ih =>
      intro kv h
      rw [graStateAfter, update_gra_step_standstill CS hss] at h
      by_cases h33 : (t0 + n) % 33 = 0
      · rw [if_pos h33] at h
        simp only [Option.some.injEq] at h
        subst h
        omega
      · rw [if_neg h33] at h
        rcases hst : graStateAfter CS t0 n with _ | kv1
        · rw [hst] at h
          simp at h
        · rw [hst] at h
          have hkv1 := ih kv1 hst
          by_cases hlt : 3 * (t0 + n) < kv1.2
          · simp only [hlt, if_true] at h
            simp only [Option.some.injEq] at h
            subst h
            omega
          · simp only [hlt, if_false] at h
            simp at h

/-- A resume injection is started on tick n of the run exactly when the
engaged-at-standstill blip condition fires there, that is when the tick
index t0 + n is a multiple of 33 (frame a multiple of 99). -/
theorem graInjAt_characterization (CS : CarState) (hss : CS.standstill = true)
    (t0 n : Nat) :
    graInjAt CS t0 n = decide ((t0 + n) % 33 = 0) := by
  unfold graInjAt
  rw [graStateAfter, update_gra_step_standstill CS hss]
  by_cases h33 : (t0 + n) % 33 = 0
  · rw [if_pos h33]
    simp [h33]
  · rw [if_neg h33]
    rcases hst : graStateAfter CS t0 n with _ | kv1
    · simp [h33]
    · have hkv1 := graStateAfter_endframe_lt CS hss t0 n kv1 hst
      have hne : kv1 ≠ (VbpKind.resume, 3 * (t0 + n) + 20) := by
        intro hcontr
        rw [hcontr] at hkv1
        omega
      by_cases hlt : 3 * (t0 + n) < kv1.2
      · simp [hlt, h33, hne]
      · simp [hlt, h33]

/-- Closed form for the number of injections in the first N ticks: the
number of multiples of 33 in the tick interval from t0 to t0 + N. -/
theorem graInjCount_eq (CS : CarState) (hss : CS.standstill = true) (t0 N : Nat) :
    graInjCount CS t0 N = (t0 + N + 32) / 33 - (t0 + 32) / 33 := by
  induction N with
  | zero => simp [graInjCount]
  | succ N ih =>
      unfold graInjCount at ih ⊢
      simp only [graInjAt_characterization CS hss] at ih ⊢
      rw [List.range_succ, List.filter_append, List.length_append, ih,
        List.filter_singleton]
      by_cases h : (t0 + N) % 33 = 0
      · simp [h]
        omega
      · simp [h]
        omega

/-- C9 amended: with the controller engaged at standstill for N
consecutive arbiter ticks and no press pending initially, a resume
injection is started exactly at the ticks whose index is a multiple of
33 (frame a multiple of 99); the number of injections is between
floor(N / 33) and floor(N / 33) + 1 (which value occurs depends on the
phase of the 33-tick window at the start of the period, so it is not
always exactly floor(N / 33)); each injection expires exactly 20 frames
after the frame on which it was started; and the start frames of two
distinct injections are at least 99 frames apart, so no two 20-frame
injection windows overlap. -/
theorem resume_injection_count_and_spacing (CS : CarState)
    (hss : CS.standstill = true) (t0 N : Nat) :
    (∀ n, graInjAt CS t0 n = decide ((t0 + n) % 33 = 0)) ∧
    N / 33 ≤ graInjCount CS t0 N ∧
    graInjCount CS t0 N ≤ N / 33 + 1 ∧
    (∀ n, graInjAt CS t0 n = true →
      graStateAfter CS t0 (n + 1) = some (VbpKind.resume, 3 * (t0 + n) + 20)) ∧
    (∀ m n, m < n → graInjAt CS t0 m = true → graInjAt CS t0 n = true →
      3 * (t0 + m) + 99 ≤ 3 * (t0 + n)) := by
  refine ⟨graInjAt_characterization CS hss t0, ?_, ?_, ?_, ?_⟩
  · rw [graInjCount_eq CS hss]
    omega
  · rw [graInjCount_eq CS hss]
    omega
  · intro n h
    unfold graInjAt at h
    exact of_decide_eq_true h
  · intro m n hmn hm hn
    rw [graInjAt_characterization CS hss] at hm hn
    have hm2 : (t0 + m) % 33 = 0 := by simpa using hm
    have hn2 : (t0 + n) % 33 = 0 := by simpa using hn
    omega

/-- C9 witness: the injection-count bounds at a concrete run of 66 ticks
starting one tick after a window boundary. -/
theorem resume_injection_count_and_spacing_witness :
    66 / 33 ≤ graInjCount csStand 1 66 ∧ graInjCount csStand 1 66 ≤ 66 / 33 + 1 :=
  ⟨(resume_injection_count_and_spacing csStand rfl 1 66).2.1,
    (resume_injection_count_and_spacing csStand rfl 1 66).2.2.1⟩

/-- C9 counterexample: engaged at standstill sustained for N = 1 tick
starting at tick 0 produces one resume injection, but
floor(N / window) = floor(1 / 33) = 0, so the count is not always
exactly floor(N / window). -/
theorem resume_injection_count_not_floor :
    graInjCount csStand 0 1 = 1 ∧ graInjCount csStand 0 1 ≠ 1 / 33 := by
  constructor
  · decide
  · decide

/-! Embedding of selfdrive/controls/lib/radar_helpers.py -/

/-- Default lead acceleration decay set to 50 percent at 1s
(radar_helpers.py, line 8). -/
def _LEAD_ACCEL_TAU : ℚ := 3/2

/-- RADAR is about 1.5m ahead from center of mesh frame
(radar_helpers.py, line 17). -/
def RADAR_TO_CAMERA : ℚ := 152/100

/-- Modelled from the spec: the model update period DT_MDL comes from
common/realtime, which is not among the provided sources; its value is
irrelevant to every claim, only that the five filters share it. -/
def DT_MDL : ℚ := 1/20

/-- Modelled from the spec: FirstOrderFilter comes from
common/filter_simple, which is not among the provided sources.  A
first-order low-pass filter with time constant rc and step dt; while
uninitialized, the next update seeds the state with the raw input
instead of blending, and marks the filter initialized. -/
structure FirstOrderFilter where
  x : ℚ
  alpha : ℚ
  initialized : Bool
  deriving DecidableEq

/-- Construct a FirstOrderFilter from an initial value, time constant,
update period and initialization flag. -/
def FirstOrderFilter.create (x0 rc dt : ℚ) (initialized : Bool) : FirstOrderFilter :=
  { x := x0, alpha := dt / (rc + dt), initialized := initialized }

/-- One filter update: blend when initialized, seed otherwise. -/
def FirstOrderFilter.update (f : FirstOrderFilter) (x : ℚ) : FirstOrderFilter :=
  if f.initialized then { f with x := (1 - f.alpha) * f.x + f.alpha * x }
  else { f with x := x, initialized := true }

/-- The fields of the vision lead message read by VisionLeadState.update:
prob and the heads x[0], y[0], v[0], a[0]. -/
structure LeadMsg where
  prob : ℚ
  x0 : ℚ
  y0 : ℚ
  v0 : ℚ
  a0 : ℚ
  deriving DecidableEq

/-- State of VisionLeadState (radar_helpers.py, lines 20-56): five
first-order filters plus the published outputs. -/
structure VisionLeadState where
  vision_speed_error : FirstOrderFilter
  d_rel_filter : FirstOrderFilter
  y_rel_filter : FirstOrderFilter
  v_lead_filter : FirstOrderFilter
  a_lead_filter : FirstOrderFilter
  dRel : ℚ
  yRel : ℚ
  vLead : ℚ
  aLead : ℚ
  vRel : ℚ
  modelProb : ℚ
  aLeadTau : ℚ
  deriving DecidableEq

/-- VisionLeadState.__init__ (radar_helpers.py, lines 21-29): all five
filters start uninitialized with time constant 0.2 s; aLead = 0 and
aLeadTau at the default.  The remaining outputs are first assigned in
update; they carry 0 here. -/
def VisionLeadState.init : VisionLeadState :=
  { vision_speed_error := FirstOrderFilter.create 0 (1/5) DT_MDL false
    d_rel_filter := FirstOrderFilter.create 0 (1/5) DT_MDL false
    y_rel_filter := FirstOrderFilter.create 0 (1/5) DT_MDL false
    v_lead_filter := FirstOrderFilter.create 0 (1/5) DT_MDL false
    a_lead_filter := FirstOrderFilter.create 0 (1/5) DT_MDL false
    dRel := 0, yRel := 0, vLead := 0, aLead := 0, vRel := 0
    modelProb := 0, aLeadTau := _LEAD_ACCEL_TAU }

/-- VisionLeadState.update (radar_helpers.py, lines 31-56).  The
speed-error filter is updated unconditionally; the four kinematic
filters run only above the probability threshold, and below it the
outputs are zeroed and exactly those four filters are marked
uninitialized.  Afterwards aLeadTau is reset to the default when
the lead acceleration is small and decayed by 0.9 otherwise. -/
def VisionLeadState.update (s : VisionLeadState) (lead_msg : LeadMsg)
    (v_ego vision_v_ego : ℚ) : VisionLeadState :=
  let vse := s.vision_speed_error.update (vision_v_ego - v_ego)
  let s1 : VisionLeadState :=
    if lead_msg.prob > 1/2 then
      let d := s.d_rel_filter.update (lead_msg.x0 - RADAR_TO_CAMERA)
      let y := s.y_rel_filter.update (-lead_msg.y0)
      let v := s.v_lead_filter.update (lead_msg.v0 - vse.x)
      let a := s.a_lead_filter.update lead_msg.a0
      { s with
        vision_speed_error := vse, modelProb := lead_msg.prob
        d_rel_filter := d, dRel := d.x
        y_rel_filter := y, yRel := y.x
        v_lead_filter := v, vLead := v.x
        a_lead_filter := a, aLead := a.x
        vRel := v.x - v_ego }
    else
      { s with
        vision_speed_error := vse, modelProb := lead_msg.prob
        dRel := 0, yRel := 0, vLead := 0, aLead := 0, vRel := 0
        d_rel_filter := { s.d_rel_filter with initialized := false }
        y_rel_filter := { s.y_rel_filter with initialized := false }
        v_lead_filter := { s.v_lead_filter with initialized := false }
        a_lead_filter := { s.a_lead_filter with initialized := false } }
  if |s1.aLead| < 1/2 then { s1 with aLeadTau := _LEAD_ACCEL_TAU }
  else { s1 with aLeadTau := s1.aLeadTau * (9/10) }

/-- The fixed Kalman gain and transition data handed to Track
(kalman_params.A, C, K), row-major. -/
structure KalmanParams where
  a00 : ℚ
  a01 : ℚ
  a10 : ℚ
  a11 : ℚ
  c0 : ℚ
  c1 : ℚ
  k0 : ℚ
  k1 : ℚ
  deriving DecidableEq

/-- Two-state (speed, acceleration) Kalman filter state. -/
structure KF1D where
  x0 : ℚ
  x1 : ℚ
  deriving DecidableEq

/-- Modelled from the spec: KF1D comes from common/kalman/simple_kalman,
which is not among the provided sources.  One linear Kalman correction
step with the fixed transition matrix A, observation row C and gain K
against a new speed measurement. -/
def KF1D.update (p : KalmanParams) (kf : KF1D) (meas : ℚ) : KF1D :=
  let xp0 := p.a00 * kf.x0 + p.a01 * kf.x1
  let xp1 := p.a10 * kf.x0 + p.a11 * kf.x1
  let e := meas - (p.c0 * xp0 + p.c1 * xp1)
  { x0 := xp0 + p.k0 * e, x1 := xp1 + p.k1 * e }

/-- State of a radar Track (radar_helpers.py, lines 59-98): raw relative
measurements, the Kalman state with its published outputs, the adaptive
time constant and the update counter. -/
structure Track where
  params : KalmanParams
  cnt : Nat
  aLeadTau : ℚ
  kf : KF1D
  dRel : ℚ
  yRel : ℚ
  vRel : ℚ
  vLead : ℚ
  vLeadK : ℚ
  aLeadK : ℚ
  measured : Bool
  deriving DecidableEq

/-- Track.__init__ (radar_helpers.py, lines 60-66): it assigns only cnt,
aLeadTau and the Kalman state, seeded with speed v_lead and acceleration
0.  The attributes dRel, yRel, vRel, vLead, vLeadK, aLeadK and measured
stay unassigned until the first update (reading them before that raises
AttributeError in the source); the embedding needs total records, so
they carry placeholder zeros / false here, and every theorem that reads
them does so only on Track.update outputs (Track.IsUpdateOutput), where
the placeholders have been overwritten with real values. -/
def Track.init (v_lead : ℚ) (kalman_params : KalmanParams) : Track :=
  { params := kalman_params, cnt := 0, aLeadTau := _LEAD_ACCEL_TAU,
    kf := { x0 := v_lead, x1 := 0 },
    dRel := 0, yRel := 0, vRel := 0, vLead := 0, vLeadK := 0, aLeadK := 0,
    measured := false }

/-- Track.update (radar_helpers.py, lines 68-89): copy the raw relative
values; run one Kalman correction only after the first call (cnt > 0);
publish vLeadK / aLeadK from the Kalman state; reset aLeadTau to the
default when the published acceleration is small and decay it by 0.9
otherwise; increment cnt. -/
def Track.update (t : Track) (d_rel y_rel v_rel v_lead : ℚ) (measured : Bool) : Track :=
  let kf := if t.cnt > 0 then KF1D.update t.params t.kf v_lead else t.kf
  { t with
    dRel := d_rel, yRel := y_rel, vRel := v_rel, vLead := v_lead
    measured := measured, kf := kf, vLeadK := kf.x0, aLeadK := kf.x1
    aLeadTau := if |kf.x1| < 1/2 then _LEAD_ACCEL_TAU else t.aLeadTau * (9/10)
    cnt := t.cnt + 1 }

/-- Track.reset_a_lead (radar_helpers.py, lines 95-98): reinitialize the
Kalman state with the current speed and a forced acceleration, and take
aLeadTau from the caller; cnt is not incremented.  It reads self.vLead,
which the source assigns only in update, so it can run only on a track
that has been updated at least once; the theorems apply it to
Track.update outputs only. -/
def Track.reset_a_lead (t : Track) (aLeadK aLeadTau : ℚ) : Track :=
  { t with
    kf := { x0 := t.vLead, x1 := aLeadK }
    aLeadK := aLeadK, aLeadTau := aLeadTau }

/-- A track that has received at least one update.  In the source these
are exactly the tracks on which every attribute read by reset_a_lead and
by the cluster aggregation (dRel, yRel, vRel, vLead, vLeadK, aLeadK,
measured) has been assigned. -/
def Track.IsUpdateOutput (t : Track) : Prop :=
  ∃ t0 d_rel y_rel v_rel v_lead measured,
    t = Track.update t0 d_rel y_rel v_rel v_lead measured

/-- Arithmetic mean of a list (common/numpy_fast.mean is sum divided by
length, which fails on an empty list; the failure is embedded as
none). -/
def mean (xs : List ℚ) : Option ℚ :=
  if xs.length = 0 then none else some (xs.sum / (xs.length : ℚ))

/-- Mean distance over the member tracks (radar_helpers.py, line 112). -/
def Cluster.dRel (c : List Track) : Option ℚ :=
  mean (c.map fun t => t.dRel)

/-- Mean lateral offset over the member tracks (line 116). -/
def Cluster.yRel (c : List Track) : Option ℚ :=
  mean (c.map fun t => t.yRel)

/-- Mean relative speed over the member tracks (line 120). -/
def Cluster.vRel (c : List Track) : Option ℚ :=
  mean (c.map fun t => t.vRel)

/-- Mean raw lead speed over the member tracks (line 128). -/
def Cluster.vLead (c : List Track) : Option ℚ :=
  mean (c.map fun t => t.vLead)

/-- Mean Kalman lead speed over the member tracks (line 140). -/
def Cluster.vLeadK (c : List Track) : Option ℚ :=
  mean (c.map fun t => t.vLeadK)

/-- Kalman lead acceleration of the cluster (lines 142-147): 0 when every
member has cnt at most 1, otherwise the mean over the members with
cnt > 1. -/
def Cluster.aLeadK (c : List Track) : Option ℚ :=
  if c.all fun t => decide (t.cnt ≤ 1) then some 0
  else mean ((c.filter fun t => decide (1 < t.cnt)).map fun t => t.aLeadK)

/-- Lead acceleration time constant of the cluster (lines 149-154): the
default when every member has cnt at most 1, otherwise the mean over the
members with cnt > 1. -/
def Cluster.aLeadTau (c : List Track) : Option ℚ :=
  if c.all fun t => decide (t.cnt ≤ 1) then some _LEAD_ACCEL_TAU
  else mean ((c.filter fun t => decide (1 < t.cnt)).map fun t => t.aLeadTau)

/-- True iff any member is measured (line 158). -/
def Cluster.measured (c : List Track) : Bool :=
  c.any fun t => t.measured

/-- Cluster.is_potential_fcw (radar_helpers.py, lines 199-200). -/
def Cluster.is_potential_fcw (_c : List Track) (model_prob : ℚ) : Bool :=
  decide (model_prob > 9/10)

/-- The RadarState record (output snapshot). -/
structure RadarState where
  dRel : ℚ
  yRel : ℚ
  vRel : ℚ
  vLead : ℚ
  vLeadK : ℚ
  aLeadK : ℚ
  aLeadTau : ℚ
  modelProb : ℚ
  status : Bool
  fcw : Bool
  radar : Bool
  deriving DecidableEq

/-- Cluster.get_RadarState (radar_helpers.py, lines 160-173): the radar
path publishes the cluster aggregates, with radar = True; it is
undefined (none) when any of the per-field means is taken over an empty
member set. -/
def Cluster.get_RadarState (c : List Track) (model_prob : ℚ) : Option RadarState :=
  match Cluster.dRel c, Cluster.yRel c, Cluster.vRel c, Cluster.vLead c,
      Cluster.vLeadK c, Cluster.aLeadK c, Cluster.aLeadTau c with
  | some d, some y, some vr, some vl, some vlk, some alk, some alt =>
      some { dRel := d, yRel := y, vRel := vr, vLead := vl, vLeadK := vlk
             aLeadK := alk, aLeadTau := alt, modelProb := model_prob
             status := true, fcw := Cluster.is_potential_fcw c model_prob
             radar := true }
  | _, _, _, _, _, _, _ => none

/-- Cluster.get_RadarState_from_vision (radar_helpers.py, lines 175-188):
the vision path copies the vision filter outputs directly, with
vLeadK taken from vLead and aLeadK from aLead, and radar = False. -/
def Cluster.get_RadarState_from_vision (c : List Track)
    (vision_lead_state : VisionLeadState) : RadarState :=
  { dRel := vision_lead_state.dRel, yRel := vision_lead_state.yRel
    vRel := vision_lead_state.vRel, vLead := vision_lead_state.vLead
    vLeadK := vision_lead_state.vLead, aLeadK := vision_lead_state.aLead
    aLeadTau := vision_lead_state.aLeadTau
    fcw := Cluster.is_potential_fcw c vision_lead_state.modelProb
    modelProb := vision_lead_state.modelProb
    radar := false, status := true }

/-- Fixed Kalman data used to instantiate theorems at concrete tracks. -/
def kp0 : KalmanParams :=
  { a00 := 1, a01 := 1/100, a10 := 0, a11 := 1, c0 := 1, c1 := 0,
    k0 := 1/2, k1 := 1/4 }

/-- Updating a first-order filter always leaves it initialized: it either
blends (staying initialized) or seeds and marks itself initialized. -/
theorem FirstOrderFilter.update_initialized (f : FirstOrderFilter) (x : ℚ) :
    (f.update x).initialized = true := by
  unfold FirstOrderFilter.update
  split
  · next h => simpa using h
  · rfl

/-- C5 counterexample: a low-probability update leaves the speed-error
filter initialized (it was just updated unconditionally), so not all
five filters are marked uninitialized as the claim states. -/
theorem vision_low_prob_speed_error_filter_stays_initialized :
    (VisionLeadState.init.update (LeadMsg.mk 0 0 0 0 0) 0 0).vision_speed_error.initialized
        = true ∧
    (LeadMsg.mk 0 0 0 0 0).prob ≤ 1/2 := by
  constructor
  · simp only [VisionLeadState.update]
    rw [if_neg (by norm_num : ¬ ((1:ℚ)/2 < (LeadMsg.mk 0 0 0 0 0).prob))]
    split <;> simp [FirstOrderFilter.update_initialized]
  · norm_num

/-- C5 amended: on every update with lead probability at most 0.5, all
five kinematic outputs are zeroed and exactly the four kinematic filters
(dRel, yRel, vLead, aLead) are marked uninitialized; the speed-error
filter, having just been updated unconditionally, remains initialized. -/
theorem vision_low_prob_zeroes_and_uninitializes
    (s : VisionLeadState) (lead_msg : LeadMsg) (v_ego vision_v_ego : ℚ)
    (h : lead_msg.prob ≤ 1/2) :
    (s.update lead_msg v_ego vision_v_ego).dRel = 0 ∧
    (s.update lead_msg v_ego vision_v_ego).yRel = 0 ∧
    (s.update lead_msg v_ego vision_v_ego).vLead = 0 ∧
    (s.update lead_msg v_ego vision_v_ego).aLead = 0 ∧
    (s.update lead_msg v_ego vision_v_ego).vRel = 0 ∧
    (s.update lead_msg v_ego vision_v_ego).d_rel_filter.initialized = false ∧
    (s.update lead_msg v_ego vision_v_ego).y_rel_filter.initialized = false ∧
    (s.update lead_msg v_ego vision_v_ego).v_lead_filter.initialized = false ∧
    (s.update lead_msg v_ego vision_v_ego).a_lead_filter.initialized = false ∧
    (s.update lead_msg v_ego vision_v_ego).vision_speed_error.initialized = true := by
  have hnot : ¬ (1/2 : ℚ) < lead_msg.prob := not_lt.mpr h
  simp only [VisionLeadState.update]
  rw [if_neg hnot]
  split <;>
    simp [FirstOrderFilter.update_initialized]

/-- C5 amended witness: the low-probability branch at a concrete state. -/
theorem vision_low_prob_zeroes_and_uninitializes_witness :
    (VisionLeadState.init.update (LeadMsg.mk 0 0 0 0 0) 0 0).dRel = 0 ∧
    (VisionLeadState.init.update (LeadMsg.mk 0 0 0 0 0) 0 0).yRel = 0 ∧
    (VisionLeadState.init.update (LeadMsg.mk 0 0 0 0 0) 0 0).vLead = 0 ∧
    (VisionLeadState.init.update (LeadMsg.mk 0 0 0 0 0) 0 0).aLead = 0 ∧
    (VisionLeadState.init.update (LeadMsg.mk 0 0 0 0 0) 0 0).vRel = 0 ∧
    (VisionLeadState.init.update (LeadMsg.mk 0 0 0 0 0) 0 0).d_rel_filter.initialized = false ∧
    (VisionLeadState.init.update (LeadMsg.mk 0 0 0 0 0) 0 0).y_rel_filter.initialized = false ∧
    (VisionLeadState.init.update (LeadMsg.mk 0 0 0 0 0) 0 0).v_lead_filter.initialized = false ∧
    (VisionLeadState.init.update (LeadMsg.mk 0 0 0 0 0) 0 0).a_lead_filter.initialized = false ∧
    (VisionLeadState.init.update (LeadMsg.mk 0 0 0 0 0) 0 0).vision_speed_error.initialized = true :=
  vision_low_prob_zeroes_and_uninitializes VisionLeadState.init
    (LeadMsg.mk 0 0 0 0 0) 0 0 (by norm_num)

/-- C6: in a non-empty cluster, aLeadK and aLeadTau fall back to 0 and
the default 1.5 when every member has cnt at most 1; otherwise they are
the arithmetic means over exactly the members with cnt > 1 (stated as
value times member count equals sum, over the non-empty filtered
list). -/
theorem cluster_aLeadK_aLeadTau_aggregation (c : List Track) (hne : c ≠ []) :
    ((∀ t ∈ c, t.cnt ≤ 1) →
      Cluster.aLeadK c = some 0 ∧ Cluster.aLeadTau c = some _LEAD_ACCEL_TAU) ∧
    ((∃ t ∈ c, 1 < t.cnt) →
      0 < (c.filter fun t => decide (1 < t.cnt)).length ∧
      ∃ k τ, Cluster.aLeadK c = some k ∧ Cluster.aLeadTau c = some τ ∧
        k * ((c.filter fun t => decide (1 < t.cnt)).length : ℚ) =
          ((c.filter fun t => decide (1 < t.cnt)).map fun t => t.aLeadK).sum ∧
        τ * ((c.filter fun t => decide (1 < t.cnt)).length : ℚ) =
          ((c.filter fun t => decide (1 < t.cnt)).map fun t => t.aLeadTau).sum) := by
  constructor
  · intro hall
    have h1 : (c.all fun t => decide (t.cnt ≤ 1)) = true := by
      rw [List.all_eq_true]
      intro t ht
      exact decide_eq_true (hall t ht)
    unfold Cluster.aLeadK Cluster.aLeadTau
    rw [if_pos h1, if_pos h1]
    exact ⟨rfl, rfl⟩
  · rintro ⟨t, ht, hcnt⟩
    have h1 : ¬ (c.all fun t => decide (t.cnt ≤ 1)) = true := by
      rw [List.all_eq_true]
      intro hcontr
      have := hcontr t ht
      simp at this
      omega
    have hmem : t ∈ c.filter fun t => decide (1 < t.cnt) :=
      List.mem_filter.mpr ⟨ht, decide_eq_true hcnt⟩
    have hlen : 0 < (c.filter fun t => decide (1 < t.cnt)).length :=
      List.length_pos_of_mem hmem
    have hlenq : ((c.filter fun t => decide (1 < t.cnt)).length : ℚ) ≠ 0 := by
      exact_mod_cast Nat.pos_iff_ne_zero.mp hlen
    refine ⟨hlen,
      ((c.filter fun t => decide (1 < t.cnt)).map fun t => t.aLeadK).sum /
        ((c.filter fun t => decide (1 < t.cnt)).length : ℚ),
      ((c.filter fun t => decide (1 < t.cnt)).map fun t => t.aLeadTau).sum /
        ((c.filter fun t => decide (1 < t.cnt)).length : ℚ), ?_, ?_, ?_, ?_⟩
    · unfold Cluster.aLeadK mean
      rw [if_neg h1, if_neg (by simp only [List.length_map]; omega), List.length_map]
    · unfold Cluster.aLeadTau mean
      rw [if_neg h1, if_neg (by simp only [List.length_map]; omega), List.length_map]
    · exact div_mul_cancel₀ _ hlenq
    · exact div_mul_cancel₀ _ hlenq

/-- C6 witness: a singleton cluster whose only member has cnt = 0. -/
theorem cluster_aLeadK_aLeadTau_aggregation_witness :
    Cluster.aLeadK [Track.init 0 kp0] = some 0 ∧
    Cluster.aLeadTau [Track.init 0 kp0] = some _LEAD_ACCEL_TAU :=
  (cluster_aLeadK_aLeadTau_aggregation [Track.init 0 kp0] (by simp)).1
    (by
      intro t ht
      rw [List.mem_singleton] at ht
      subst ht
      norm_num [Track.init])

/-- C7 counterexample: Track.reset_a_lead writes its aLeadTau argument
unchanged.  On a track that has received one update (so that, as in the
source, vLead and the other attributes are assigned and reset_a_lead can
run), reset_a_lead 0 7 reads the updated vLead = 4 into the Kalman state
and sets aLeadTau to 7, which is neither the default 1.5 nor 0.9 times
the previous value 1.5. -/
theorem track_reset_a_lead_sets_arbitrary_tau :
    ((((Track.init 0 kp0).update 1 2 3 4 true).reset_a_lead 0 7).aLeadTau = 7) ∧
    ((((Track.init 0 kp0).update 1 2 3 4 true).reset_a_lead 0 7).kf =
      { x0 := 4, x1 := 0 }) ∧
    (((Track.init 0 kp0).update 1 2 3 4 true).aLeadTau = _LEAD_ACCEL_TAU) ∧
    (7 : ℚ) ≠ _LEAD_ACCEL_TAU ∧
    (7 : ℚ) ≠ ((Track.init 0 kp0).update 1 2 3 4 true).aLeadTau * (9/10) := by
  have htau : ((Track.init 0 kp0).update 1 2 3 4 true).aLeadTau = _LEAD_ACCEL_TAU := by
    norm_num [Track.update, Track.init]
  refine ⟨rfl, rfl, htau, by norm_num [_LEAD_ACCEL_TAU], ?_⟩
  rw [htau]
  norm_num [_LEAD_ACCEL_TAU]

/-- C7 amended: Track.update changes aLeadTau only by resetting it to the
default 1.5 (when the freshly published |aLeadK| < 0.5) or by multiplying
it by 0.9 (otherwise); Track construction sets the default; but
Track.reset_a_lead — runnable in the source on any track that has been
updated at least once — overwrites aLeadTau with its caller-supplied
argument, an additional way the field changes that the claim omits. -/
theorem track_aLeadTau_update_rule (t : Track) (d_rel y_rel v_rel v_lead : ℚ)
    (measured : Bool) (k τ v0 : ℚ) (kp : KalmanParams) :
    ((|(t.update d_rel y_rel v_rel v_lead measured).aLeadK| < 1/2 ∧
        (t.update d_rel y_rel v_rel v_lead measured).aLeadTau = _LEAD_ACCEL_TAU) ∨
      (¬ |(t.update d_rel y_rel v_rel v_lead measured).aLeadK| < 1/2 ∧
        (t.update d_rel y_rel v_rel v_lead measured).aLeadTau = t.aLeadTau * (9/10))) ∧
    (Track.IsUpdateOutput t → (t.reset_a_lead k τ).aLeadTau = τ) ∧
    (Track.init v0 kp).aLeadTau = _LEAD_ACCEL_TAU := by
  refine ⟨?_, fun _ => rfl, rfl⟩
  simp only [Track.update]
  by_cases h : |(if t.cnt > 0 then KF1D.update t.params t.kf v_lead else t.kf).x1| < 1/2
  · exact Or.inl ⟨h, if_pos h⟩
  · exact Or.inr ⟨h, if_neg h⟩

/-- The mean of a mapped member list is defined whenever the member list
is non-empty. -/
theorem mean_map_isSome (f : Track → ℚ) (c : List Track) (hne : c ≠ []) :
    (mean (c.map f)).isSome = true := by
  unfold mean
  rw [if_neg (by simp [List.length_map, List.length_eq_zero, hne])]
  rfl

/-- When not every member has cnt at most 1, the filtered member list
with cnt > 1 is non-empty. -/
theorem cluster_filter_ne_nil (c : List Track)
    (hnall : ¬ (c.all fun t => decide (t.cnt ≤ 1)) = true) :
    (c.filter fun t => decide (1 < t.cnt)) ≠ [] := by
  rw [List.all_eq_true] at hnall
  push_neg at hnall
  obtain ⟨t, ht, hdec⟩ := hnall
  have h1 : 1 < t.cnt := by
    by_contra hc
    exact hdec (decide_eq_true (by omega))
  exact List.ne_nil_of_mem (List.mem_filter.mpr ⟨ht, decide_eq_true h1⟩)

/-- Cluster.aLeadK is defined for every non-empty cluster. -/
theorem cluster_aLeadK_isSome (c : List Track) (hne : c ≠ []) :
    (Cluster.aLeadK c).isSome = true := by
  unfold Cluster.aLeadK
  by_cases hall : (c.all fun t => decide (t.cnt ≤ 1)) = true
  · rw [if_pos hall]
    rfl
  · rw [if_neg hall]
    unfold mean
    rw [if_neg (by
      simp only [List.length_map, List.length_eq_zero]
      exact cluster_filter_ne_nil c hall)]
    rfl

/-- Cluster.aLeadTau is defined for every non-empty cluster. -/
theorem cluster_aLeadTau_isSome (c : List Track) (hne : c ≠ []) :
    (Cluster.aLeadTau c).isSome = true := by
  unfold Cluster.aLeadTau
  by_cases hall : (c.all fun t => decide (t.cnt ≤ 1)) = true
  · rw [if_pos hall]
    rfl
  · rw [if_neg hall]
    unfold mean
    rw [if_neg (by
      simp only [List.length_map, List.length_eq_zero]
      exact cluster_filter_ne_nil c hall)]
    rfl

/-- C8: the vision path of the radar-state output copies the vision
filter outputs directly — vLeadK from vLead and aLeadK from aLead, with
no further Kalman step — and flags radar = false; by contrast, in the
radar path radar = true and vLeadK / aLeadK are the cluster aggregates
of the per-track Kalman outputs, which Track.update takes from its
Kalman state. -/
theorem vision_radar_state_copies_filter_outputs :
    (∀ (c : List Track) (v : VisionLeadState),
      (Cluster.get_RadarState_from_vision c v).radar = false ∧
      (Cluster.get_RadarState_from_vision c v).vLeadK = v.vLead ∧
      (Cluster.get_RadarState_from_vision c v).aLeadK = v.aLead ∧
      (Cluster.get_RadarState_from_vision c v).aLeadTau = v.aLeadTau) ∧
    (∀ (t : Track) (d_rel y_rel v_rel v_lead : ℚ) (measured : Bool),
      (t.update d_rel y_rel v_rel v_lead measured).vLeadK =
        (t.update d_rel y_rel v_rel v_lead measured).kf.x0 ∧
      (t.update d_rel y_rel v_rel v_lead measured).aLeadK =
        (t.update d_rel y_rel v_rel v_lead measured).kf.x1) ∧
    (∀ (c : List Track) (model_prob : ℚ) (r : RadarState),
      Cluster.get_RadarState c model_prob = some r →
        r.radar = true ∧ Cluster.vLeadK c = some r.vLeadK ∧
          Cluster.aLeadK c = some r.aLeadK) := by
  refine ⟨fun c v => ⟨rfl, rfl, rfl, rfl⟩,
    fun t d_rel y_rel v_rel v_lead measured => ⟨rfl, rfl⟩, ?_⟩
  intro c model_prob r h
  unfold Cluster.get_RadarState at h
  split at h
  · next d y vr vl vlk alk alt hd hy hvr hvl hvlk halk halt =>
      simp only [Option.some.injEq] at h
      subst h
      exact ⟨rfl, hvlk, halk⟩
  · exact absurd h (by simp)

/-- C10: the vision path never reads the member set — its output is the
same for any two clusters, in particular for the empty one, for which it
is still well-defined; the radar path, by contrast, is undefined on an
empty member set (its per-field means divide by the member count) and
defined on every non-empty cluster of tracks that have received at least
one update (exactly the tracks whose aggregated attributes the source
has assigned). -/
theorem vision_radar_state_well_defined_on_empty :
    (∀ (c c2 : List Track) (v : VisionLeadState),
      Cluster.get_RadarState_from_vision c v =
        Cluster.get_RadarState_from_vision c2 v) ∧
    (∀ model_prob : ℚ, Cluster.get_RadarState [] model_prob = none) ∧
    (∀ (c : List Track) (model_prob : ℚ), c ≠ [] →
      (∀ t ∈ c, Track.IsUpdateOutput t) →
      (Cluster.get_RadarState c model_prob).isSome = true) := by
  refine ⟨fun c c2 v => rfl, fun model_prob => rfl, ?_⟩
  intro c model_prob hne _hupd
  obtain ⟨d, hd⟩ := Option.isSome_iff_exists.mp (mean_map_isSome (fun t => t.dRel) c hne)
  obtain ⟨y, hy⟩ := Option.isSome_iff_exists.mp (mean_map_isSome (fun t => t.yRel) c hne)
  obtain ⟨vr, hvr⟩ := Option.isSome_iff_exists.mp (mean_map_isSome (fun t => t.vRel) c hne)
  obtain ⟨vl, hvl⟩ := Option.isSome_iff_exists.mp (mean_map_isSome (fun t => t.vLead) c hne)
  obtain ⟨vlk, hvlk⟩ := Option.isSome_iff_exists.mp (mean_map_isSome (fun t => t.vLeadK) c hne)
  obtain ⟨alk, halk⟩ := Option.isSome_iff_exists.mp (cluster_aLeadK_isSome c hne)
  obtain ⟨alt, halt⟩ := Option.isSome_iff_exists.mp (cluster_aLeadTau_isSome c hne)
  unfold Cluster.get_RadarState
  rw [show Cluster.dRel c = some d from hd, show Cluster.yRel c = some y from hy,
    show Cluster.vRel c = some vr from hvr, show Cluster.vLead c = some vl from hvl,
    show Cluster.vLeadK c = some vlk from hvlk, halk, halt]
  rfl

/-- C10 witness: the radar path at a concrete singleton cluster whose
member has received one update. -/
theorem vision_radar_state_well_defined_on_empty_witness :
    (Cluster.get_RadarState [(Track.init 0 kp0).update 1 2 3 4 true] 0).isSome = true :=
  vision_radar_state_well_defined_on_empty.2.2
    [(Track.init 0 kp0).update 1 2 3 4 true] 0 (by simp)
    (by
      intro t ht
      rw [List.mem_singleton] at ht
      exact ⟨Track.init 0 kp0, 1, 2, 3, 4, true, ht⟩)
